import Mathlib

/-!
Shallow embedding of the core of the `design-3-glo` robot controller:

* `design/interfacing/stm32_driver.py` — the STM32 hardware protocol driver:
  outbound command framing with a wrap-to-zero 16-bit checksum, the receive
  loop's frame validation and dispatch, the packed-bit-field antenna telemetry
  decoder, and the observer notification log.
* `design/decision_making/command_dispatcher.py` — the step dispatcher: a
  static step-to-command table built once at construction, fixed membership
  sets selecting translation/rotation servo modes, and the delegation to the
  movement strategy's rotation/translation command factories.

Python machine-level details are made explicit: integers are `Nat`/`Int`
with `% 65536` where the wire format wraps, `struct.pack`'s range check and
`pyserial`'s port-open check appear as explicit guards, and Python's
`a & b + c` operator precedence (`+` binds tighter than `&`) is preserved
with parentheses.
-/

namespace Stm32

/-- Opcode constants of the `Commands` class in `stm32_driver.py`. -/
def TRANSLATE : Nat := 0x0000

def ROTATE : Nat := 0x0001

def FLASH_GREEN_LED : Nat := 0x0002

def ENABLE_RED_LED : Nat := 0x0003

def ENABLE_ADC : Nat := 0x0004

def DECODE_MANCHESTER : Nat := 0x0005

def STOP : Nat := 0x0006

def RESET : Nat := 0x0007

/-- Response opcode `Response.STM_READY`. -/
def STM_READY : Nat := 0x0008

/-- Response opcode `Response.SIGNAL_STRENGTH`. -/
def SIGNAL_STRENGTH : Nat := 0x0009

/-- Response opcode `Response.SIGNAL_DATA`. -/
def SIGNAL_DATA : Nat := 0x000A

/-- `Constants.EMPTY_PARAM`. -/
def EMPTY_PARAM : Nat := 0x0000

/-- `Constants.ENABLED`. -/
def ENABLED : Nat := 0xFFFF

/-- `Constants.DISABLED`. -/
def DISABLED : Nat := 0x0000

/-- `Constants.MASK_FIGURE`. -/
def MASK_FIGURE : Nat := 0x70

/-- `Constants.MASK_ORIENTATION`. -/
def MASK_ORIENTATION : Nat := 0x0C

/-- `Constants.MASK_ZOOM`. -/
def MASK_ZOOM : Nat := 0x02

/-- An inbound 6-byte frame after `struct.unpack("<HHH", ...)`: three
unsigned 16-bit fields (opcode, parameter, checksum field). -/
structure InboundFrame where
  opcode : Nat
  param : Nat
  checksum_field : Nat
deriving DecidableEq, Repr

/-- `Stm32Driver.validate_checksum`: the frame is accepted iff the sum of its
three fields wraps to zero modulo 65536. -/
def validate_checksum (f : InboundFrame) : Bool :=
  (f.opcode + f.param + f.checksum_field) % 65536 == 0

/-- `design/pathfinding/antenna_information.py`'s `AntennaInformation`, with
the three fields the receive loop assigns on a `SIGNAL_DATA` frame.
The orientation is an `Int` because the Python expression computing it
subtracts before taking `%` (Python `%` with positive modulus is `Int.emod`). -/
structure AntennaInformation where
  painting_number : Nat
  zoom : Nat
  orientation : Int
deriving DecidableEq, Repr

/-- Errors surfaced by the outbound command path:
`assertionError` for a failed Python `assert` (parameter validation),
`structError` for `struct.pack` on an out-of-range field, and
`portNotOpen` for `pyserial`'s write-on-closed-port error. -/
inductive Err where
  | assertionError
  | structError
  | portNotOpen
deriving DecidableEq, Repr

/-- The mutable state of an `Stm32Driver` instance: the serial port (its
open flag and the log of frames written to it, each a 4-field outbound
frame), the receive-loop flag `is_running`, and the telemetry fields
written by the receive loop. `notified` logs, in order, the
`response_type` argument of each `notify_all_observers` call (each such
call delivers the event to every registered observer). -/
structure Stm32Driver where
  port_is_open : Bool
  written : List (List Nat)
  is_running : Bool
  is_ready : Bool
  signal_strength : Option Nat
  antenna_information : Option AntennaInformation
  notified : List Nat
deriving DecidableEq, Repr

/-- The driver state right after `__init__` (port opened, thread started,
no telemetry yet). -/
def init_driver : Stm32Driver :=
  { port_is_open := true
    written := []
    is_running := true
    is_ready := false
    signal_strength := none
    antenna_information := none
    notified := [] }

/-- `Stm32Driver.notify_all_observers`: appends one entry to the
notification log (the loop over observers delivers it to each). -/
def notify_all_observers (d : Stm32Driver) (response_type : Nat) : Stm32Driver :=
  { d with notified := d.notified ++ [response_type] }

/-- The checksum computed in `Stm32Driver.send_command`:
`(65536 - command - param1 - param2) % 65536`, with Python's `%` on a
possibly negative left operand (hence computed over `Int` with `emod`). -/
def outbound_checksum (command param1 param2 : Nat) : Nat :=
  (((65536 : Int) - command - param1 - param2) % 65536).toNat

/-- `Stm32Driver.send_command`: computes the checksum, packs the four
16-bit fields (`struct.pack("<HHHH", ...)` raises `struct.error` if a
field exceeds 16 bits), and writes the packet (`pyserial` raises if the
port is not open). On error no bytes are written. -/
def send_command (d : Stm32Driver) (command : Nat)
    (param1 : Nat := EMPTY_PARAM) (param2 : Nat := EMPTY_PARAM) :
    Option Err × Stm32Driver :=
  if command < 65536 ∧ param1 < 65536 ∧ param2 < 65536 ∧
      outbound_checksum command param1 param2 < 65536 then
    if d.port_is_open then
      (none, { d with written :=
        d.written ++ [[command, param1, param2, outbound_checksum command param1 param2]] })
    else (some Err.portNotOpen, d)
  else (some Err.structError, d)

/-- `Stm32Driver.translate_robot`: asserts both displacements are in the
signed 16-bit range, then sends `TRANSLATE` with the signed-to-unsigned
remap `+ 32768` applied to both parameters. -/
def translate_robot (d : Stm32Driver) (dx dy : Int) : Option Err × Stm32Driver :=
  if -32768 ≤ dx ∧ dx ≤ 32767 then
    if -32768 ≤ dy ∧ dy ≤ 32767 then
      send_command d TRANSLATE (dx + 32768).toNat (dy + 32768).toNat
    else (some Err.assertionError, d)
  else (some Err.assertionError, d)

/-- `2 * math.pi` of the source, as the 16-significant-digit decimal
rational. The theorems below do not depend on its exact value, only on
`0 < two_pi < 7`. -/
def two_pi : ℚ := 6.283185307179586

/-- `Stm32Driver.rotate_robot`: asserts `theta` lies in `[-2π, 2π]`, then
sends `ROTATE` with parameter `int((theta + 2π) * 100)` (truncation of a
non-negative value, i.e. the floor). Python float arithmetic is modelled
over `ℚ`. -/
def rotate_robot (d : Stm32Driver) (theta : ℚ) : Option Err × Stm32Driver :=
  if -two_pi ≤ theta ∧ theta ≤ two_pi then
    send_command d ROTATE (⌊(theta + two_pi) * 100⌋).toNat
  else (some Err.assertionError, d)

/-- `Stm32Driver.stop_robot`. -/
def stop_robot (d : Stm32Driver) : Option Err × Stm32Driver :=
  send_command d STOP

/-- `Stm32Driver.reset_robot`. -/
def reset_robot (d : Stm32Driver) : Option Err × Stm32Driver :=
  send_command d RESET

/-- `Stm32Driver.enable_red_led`. -/
def enable_red_led (d : Stm32Driver) (is_enabled : Bool) : Option Err × Stm32Driver :=
  send_command d ENABLE_RED_LED (if is_enabled then ENABLED else DISABLED)

/-- `Stm32Driver.flash_green_led`: asserts the duration is an unsigned
16-bit value. -/
def flash_green_led (d : Stm32Driver) (milliseconds : Nat) : Option Err × Stm32Driver :=
  if milliseconds ≤ 65535 then
    send_command d FLASH_GREEN_LED milliseconds
  else (some Err.assertionError, d)

/-- `Stm32Driver.enable_sampling`. -/
def enable_sampling (d : Stm32Driver) (is_enabled : Bool) : Option Err × Stm32Driver :=
  send_command d ENABLE_ADC (if is_enabled then ENABLED else DISABLED)

/-- `Stm32Driver.decode_manchester`. -/
def decode_manchester (d : Stm32Driver) : Option Err × Stm32Driver :=
  send_command d DECODE_MANCHESTER

/-- `Stm32Driver.close`: clears `is_running` and joins the receive
thread; the receive loop observes the cleared flag, exits, and runs
`self.port.close()`, so when `close` returns the port is closed. -/
def close (d : Stm32Driver) : Stm32Driver :=
  { d with is_running := false, port_is_open := false }

/-- One iteration of the body of `Stm32Driver.run` on a successfully
unpacked inbound frame: validate the checksum, then dispatch on the
opcode. An invalid checksum or an unrecognized opcode only prints a
diagnostic: the state is returned unchanged. The `zoom` expression keeps
the source's `data_list[1] & Constants.MASK_ZOOM + 2`, in which Python's
`+` binds tighter than `&`, so the mask is `MASK_ZOOM + 2 = 0x04`. -/
def process_frame (d : Stm32Driver) (f : InboundFrame) : Stm32Driver :=
  if validate_checksum f then
    if f.opcode = STM_READY then
      { d with is_ready := true }
    else if f.opcode = SIGNAL_STRENGTH then
      notify_all_observers { d with signal_strength := some f.param } SIGNAL_STRENGTH
    else if f.opcode = SIGNAL_DATA then
      let painting_number := f.param &&& MASK_FIGURE
      let zoom := f.param &&& (MASK_ZOOM + 2)
      let orientation : Int := (360 - ((f.param &&& MASK_ORIENTATION : Nat) : Int) * 90) % 360
      let info : AntennaInformation :=
        { painting_number := painting_number, zoom := zoom, orientation := orientation }
      notify_all_observers { d with antenna_information := some info } SIGNAL_DATA
    else d
  else d

/-- Flip bit `k` of a 16-bit field: clear it (subtract `2 ^ k`) when set,
set it (add `2 ^ k`) when clear. This is `x ^^^ 2 ^ k`. -/
def flipBit (x k : Nat) : Nat :=
  if x.testBit k then x - 2 ^ k else x + 2 ^ k

/-- Flip bit `k` of field `i` (0 = opcode, 1 = parameter, 2 = checksum
field) of an inbound frame. -/
def flipField (f : InboundFrame) (i : Fin 3) (k : Nat) : InboundFrame :=
  match i with
  | ⟨0, _⟩ => { f with opcode := flipBit f.opcode k }
  | ⟨1, _⟩ => { f with param := flipBit f.param k }
  | ⟨2, _⟩ => { f with checksum_field := flipBit f.checksum_field k }

end Stm32

namespace Dispatch

/-- Modelled from the spec: the `Step` enumeration of
`design/decision_making/constants.py` is not among the provided sources;
its members are reconstructed from every `Step.*` name referenced by
`command_dispatcher.py` (the source's spelling, including `STANBY`, is
kept). -/
inductive Step where
  | STANBY
  | PREPARE_TRAVEL_TO_ANTENNA_ZONE
  | TERMINATE_SEQUENCE
  | COMPUTE_PAINTINGS_AREA
  | PREPARE_SEARCH_FOR_ANTENNA
  | SEARCH_FOR_ANTENNA
  | PREPARE_MOVING_TO_ANTENNA_POSITION
  | PREPARE_MARKING_ANTENNA_POSITION
  | ACQUIRE_INFORMATION_FROM_ANTENNA
  | PREPARE_TRAVEL_TO_DRAWING_ZONE
  | PREPARE_TO_DRAW
  | PREPARE_EXIT_OF_DRAWING_ZONE
  | PREPARE_CAPTURE_OF_PAINTING
  | CAPTURE_CORRECT_PAINTING
  | REPOSITION_FOR_CAPTURE_RETRY
  | PREPARE_MOVING_TO_OFFSET
  | PREPARE_ALIGN_WITH_CAPTURE
  | PREPARE_REALIGN_WITH_FIRST_VERTEX_DRAWN
  | ROTATE_BACK_AFTER_CAPTURE
  | ROTATE_TO_FACE_PAINTING
  | ROTATE_TO_STANDARD_HEADING
  | DRAWING
  | MARKING_ANTENNA_POSITION
  | TRAVEL_TO_DRAWING_ZONE
  | TRAVEL_TO_PAINTINGS_AREA
  | EXITING_DRAWING_ZONE
deriving DecidableEq, Repr

/-- The two servoing modes of `TranslationStrategyType` /
`RotationStrategyType` used by the dispatcher. -/
inductive StrategyType where
  | trustMaterialServoing
  | basicWheelServoing
deriving DecidableEq, Repr

/-- Which command class (from `preparation_commands.py`) or which
movement-strategy factory produced a command object. The command classes
themselves are external collaborators: the dispatcher only constructs and
returns them, never inspects their internals. -/
inductive CommandKind where
  | buildGameMap
  | prepareTravelToAntennaArea
  | finishCycle
  | travelToPaintingsArea
  | prepareSearchForAntennaPosition
  | searchForAntennaPosition
  | prepareMovingToAntennaPosition
  | prepareMarkingAntenna
  | acquireInformationFromAntenna
  | prepareTravelToDrawingArea
  | prepareToDraw
  | prepareExitOfDrawingArea
  | faceRelevantFigureForCapture
  | captureFigure
  | repositionForCaptureRetry
  | prepareMovingOfAntennaOffset
  | prepareAlignWithCapture
  | prepareRealignWithFirstVertexDrawn
  | rotationCommand
  | translationCommand
deriving DecidableEq, Repr

/-- A command object: its class, the step it was constructed with, and a
`uid` standing for Python object identity (each construction yields a
fresh `uid`). The collaborators bound at construction (controller,
pathfinder, logger, vision, ...) are opaque and carried by the class tag. -/
structure Command where
  kind : CommandKind
  step : Step
  uid : Nat
deriving DecidableEq, Repr

/-- The mutable `MovementStrategy` collaborator: its two servo-mode
fields, which the dispatcher reassigns on every lookup. -/
structure MovementStrategy where
  translation_strategy : StrategyType
  rotation_strategy : StrategyType
deriving DecidableEq, Repr

/-- Modelled from the spec: the movement strategy's rotation-command
factory (`get_rotation_command(step, controller, pathfinder, logger,
servo_manager)`), whose implementation is not among the provided sources.
It constructs and returns a fresh command; the opaque collaborators are
omitted. -/
def MovementStrategy.get_rotation_command (s : Step) (uid : Nat) : Command :=
  { kind := CommandKind.rotationCommand, step := s, uid := uid }

/-- Modelled from the spec: the movement strategy's translation-command
factory (`get_translation_command(...)`); see
`MovementStrategy.get_rotation_command`. -/
def MovementStrategy.get_translation_command (s : Step) (uid : Nat) : Command :=
  { kind := CommandKind.translationCommand, step := s, uid := uid }

/-- `self.steps_using_rotation` from `CommandDispatcher.__init__`. -/
def steps_using_rotation : List Step :=
  [Step.ROTATE_BACK_AFTER_CAPTURE,
   Step.ROTATE_TO_FACE_PAINTING,
   Step.ROTATE_TO_STANDARD_HEADING]

/-- `self.steps_using_translation_material_servo_management`. -/
def steps_using_translation_material_servo_management : List Step :=
  [Step.DRAWING, Step.MARKING_ANTENNA_POSITION, Step.TRAVEL_TO_DRAWING_ZONE,
   Step.TRAVEL_TO_PAINTINGS_AREA, Step.SEARCH_FOR_ANTENNA, Step.EXITING_DRAWING_ZONE]

/-- `self.steps_using_rotation_material_servo_management`. -/
def steps_using_rotation_material_servo_management : List Step :=
  [Step.ROTATE_TO_FACE_PAINTING, Step.ROTATE_BACK_AFTER_CAPTURE]

/-- The dispatcher state: the shared `MovementStrategy`, the static
`self.equivalencies` table (a dict, embedded as an association list with
distinct keys), and the next fresh object `uid` (Python allocation). -/
structure CommandDispatcher where
  movement_strategy : MovementStrategy
  equivalencies : List (Step × Command)
  uid_counter : Nat
deriving DecidableEq, Repr

/-- `CommandDispatcher.__init__`: builds the static step-to-command table
once, constructing each of its 18 command objects exactly once (uids
0..17, in the order the dict literal constructs them). -/
def CommandDispatcher.init (ms : MovementStrategy) : CommandDispatcher :=
  { movement_strategy := ms
    equivalencies :=
      [(Step.STANBY, ⟨CommandKind.buildGameMap, Step.STANBY, 0⟩),
       (Step.PREPARE_TRAVEL_TO_ANTENNA_ZONE,
        ⟨CommandKind.prepareTravelToAntennaArea, Step.PREPARE_TRAVEL_TO_ANTENNA_ZONE, 1⟩),
       (Step.TERMINATE_SEQUENCE, ⟨CommandKind.finishCycle, Step.TERMINATE_SEQUENCE, 2⟩),
       (Step.COMPUTE_PAINTINGS_AREA,
        ⟨CommandKind.travelToPaintingsArea, Step.COMPUTE_PAINTINGS_AREA, 3⟩),
       (Step.PREPARE_SEARCH_FOR_ANTENNA,
        ⟨CommandKind.prepareSearchForAntennaPosition, Step.PREPARE_SEARCH_FOR_ANTENNA, 4⟩),
       (Step.SEARCH_FOR_ANTENNA,
        ⟨CommandKind.searchForAntennaPosition, Step.SEARCH_FOR_ANTENNA, 5⟩),
       (Step.PREPARE_MOVING_TO_ANTENNA_POSITION,
        ⟨CommandKind.prepareMovingToAntennaPosition, Step.PREPARE_MOVING_TO_ANTENNA_POSITION, 6⟩),
       (Step.PREPARE_MARKING_ANTENNA_POSITION,
        ⟨CommandKind.prepareMarkingAntenna, Step.PREPARE_MARKING_ANTENNA_POSITION, 7⟩),
       (Step.ACQUIRE_INFORMATION_FROM_ANTENNA,
        ⟨CommandKind.acquireInformationFromAntenna, Step.ACQUIRE_INFORMATION_FROM_ANTENNA, 8⟩),
       (Step.PREPARE_TRAVEL_TO_DRAWING_ZONE,
        ⟨CommandKind.prepareTravelToDrawingArea, Step.PREPARE_TRAVEL_TO_DRAWING_ZONE, 9⟩),
       (Step.PREPARE_TO_DRAW, ⟨CommandKind.prepareToDraw, Step.PREPARE_TO_DRAW, 10⟩),
       (Step.PREPARE_EXIT_OF_DRAWING_ZONE,
        ⟨CommandKind.prepareExitOfDrawingArea, Step.PREPARE_EXIT_OF_DRAWING_ZONE, 11⟩),
       (Step.PREPARE_CAPTURE_OF_PAINTING,
        ⟨CommandKind.faceRelevantFigureForCapture, Step.PREPARE_CAPTURE_OF_PAINTING, 12⟩),
       (Step.CAPTURE_CORRECT_PAINTING,
        ⟨CommandKind.captureFigure, Step.CAPTURE_CORRECT_PAINTING, 13⟩),
       (Step.REPOSITION_FOR_CAPTURE_RETRY,
        ⟨CommandKind.repositionForCaptureRetry, Step.REPOSITION_FOR_CAPTURE_RETRY, 14⟩),
       (Step.PREPARE_MOVING_TO_OFFSET,
        ⟨CommandKind.prepareMovingOfAntennaOffset, Step.PREPARE_MOVING_TO_OFFSET, 15⟩),
       (Step.PREPARE_ALIGN_WITH_CAPTURE,
        ⟨CommandKind.prepareAlignWithCapture, Step.PREPARE_ALIGN_WITH_CAPTURE, 16⟩),
       (Step.PREPARE_REALIGN_WITH_FIRST_VERTEX_DRAWN,
        ⟨CommandKind.prepareRealignWithFirstVertexDrawn,
         Step.PREPARE_REALIGN_WITH_FIRST_VERTEX_DRAWN, 17⟩)]
    uid_counter := 18 }

/-- Steps 1 and 2 of `get_relevant_command`: reassign the shared
`MovementStrategy`'s translation mode (trust-material iff the step is in
the translation-servo set) and then its rotation mode (trust-material iff
the step is in the rotation-servo set). -/
def CommandDispatcher.set_strategies (d : CommandDispatcher) (s : Step) : CommandDispatcher :=
  let ms1 :=
    { d.movement_strategy with
        translation_strategy :=
          if s ∈ steps_using_translation_material_servo_management then
            StrategyType.trustMaterialServoing
          else StrategyType.basicWheelServoing }
  let ms2 :=
    { ms1 with
        rotation_strategy :=
          if s ∈ steps_using_rotation_material_servo_management then
            StrategyType.trustMaterialServoing
          else StrategyType.basicWheelServoing }
  { d with movement_strategy := ms2 }

/-- `CommandDispatcher.get_relevant_command`: set the servo modes, then
look the step up in `self.equivalencies` (`dict.get`; every stored
command object is truthy, so `if command:` returns it); on a miss,
delegate to the rotation-command factory when the step is in
`steps_using_rotation`, and to the translation-command factory otherwise.
Returns the command together with the updated dispatcher state. -/
def CommandDispatcher.get_relevant_command (d : CommandDispatcher) (s : Step) :
    Command × CommandDispatcher :=
  let d' := d.set_strategies s
  match d'.equivalencies.lookup s with
  | some command => (command, d')
  | none =>
    if s ∈ steps_using_rotation then
      (MovementStrategy.get_rotation_command s d'.uid_counter,
       { d' with uid_counter := d'.uid_counter + 1 })
    else
      (MovementStrategy.get_translation_command s d'.uid_counter,
       { d' with uid_counter := d'.uid_counter + 1 })

/-- A concrete dispatcher (both servo modes starting basic), used to
evaluate the dispatcher theorems on concrete steps. -/
def disp0 : CommandDispatcher :=
  CommandDispatcher.init
    { translation_strategy := StrategyType.basicWheelServoing
      rotation_strategy := StrategyType.basicWheelServoing }

end Dispatch

namespace Stm32

/-! ## Helper lemmas -/

/-- The outbound checksum always fits in 16 bits. -/
theorem outbound_checksum_lt (a b c : Nat) : outbound_checksum a b c < 65536 := by
  unfold outbound_checksum
  have h1 : (0 : Int) ≤ ((65536 : Int) - a - b - c) % 65536 :=
    Int.emod_nonneg _ (by norm_num)
  have h2 : ((65536 : Int) - a - b - c) % 65536 < 65536 :=
    Int.emod_lt_of_pos _ (by norm_num)
  omega

/-- `validate_checksum` as a proposition about the field sum. -/
theorem validate_checksum_iff (f : InboundFrame) :
    validate_checksum f = true ↔ (f.opcode + f.param + f.checksum_field) % 65536 = 0 := by
  simp [validate_checksum]

/-- `p &&& 4` keeps only bit 2, so it is `0` or `4`. -/
theorem and_four_cases (p : Nat) : p &&& 4 = 0 ∨ p &&& 4 = 4 := by
  have h : p &&& 2 ^ 2 = (p.testBit 2).toNat * 2 ^ 2 := Nat.and_two_pow p 2
  cases hb : p.testBit 2 <;> rw [hb] at h <;> simp at h <;> omega

/-- Flipping one bit of a summand moves the sum off `0 (mod 65536)`. -/
theorem flip_sum_ne (a b k : Nat) (hk : k < 16)
    (h : (a + b) % 65536 = 0) : (flipBit a k + b) % 65536 ≠ 0 := by
  have hc1 : 0 < 2 ^ k := Nat.two_pow_pos k
  have hc2 : 2 ^ k < 65536 := by
    have : (2 : Nat) ^ k ≤ 2 ^ 15 := Nat.pow_le_pow_right (by norm_num) (by omega)
    omega
  unfold flipBit
  split
  case isTrue hbit =>
    have hge : 2 ^ k ≤ a := Nat.testBit_implies_ge hbit
    generalize 2 ^ k = c at *
    omega
  case isFalse hbit =>
    generalize 2 ^ k = c at *
    omega

/-! ## C2 — invalid frames leave the driver state untouched -/

/-- C2: an inbound frame whose three fields do not sum to `0 (mod 65536)`,
or whose opcode is none of `STM_READY`, `SIGNAL_STRENGTH`, `SIGNAL_DATA`,
changes none of the driver's fields and notifies no observer: the receive
loop's body returns the state unchanged and continues. -/
theorem invalid_frame_no_effect (d : Stm32Driver) (f : InboundFrame)
    (h : validate_checksum f = false ∨
      (f.opcode ≠ STM_READY ∧ f.opcode ≠ SIGNAL_STRENGTH ∧ f.opcode ≠ SIGNAL_DATA)) :
    process_frame d f = d := by
  unfold process_frame
  rcases h with h | ⟨h1, h2, h3⟩
  · simp [h]
  · cases hv : validate_checksum f <;> simp [hv, h1, h2, h3]

/-- Witness for C2: a checksum-valid frame with the unknown opcode `0x0B`
is discarded (and a checksum-invalid frame would be too). -/
theorem invalid_frame_no_effect_witness :
    process_frame init_driver ⟨0x0B, 0, 0xFFF5⟩ = init_driver :=
  invalid_frame_no_effect init_driver ⟨0x0B, 0, 0xFFF5⟩
    (Or.inr ⟨by decide, by decide, by decide⟩)

/-! ## C7 — the stored zoom has no `+ 2` offset -/

/-- C7 counterexample: for the valid `SIGNAL_DATA` frame with parameter
`0`, the stored zoom is `0 &&& 0x04 = 0`, not `(0 &&& 0x04) + 2 = 2` as
the claim states: the source's `data_list[1] & Constants.MASK_ZOOM + 2`
applies no offset after the mask. -/
theorem zoom_offset_cex :
    (process_frame init_driver ⟨SIGNAL_DATA, 0, 65526⟩).antenna_information.map
        AntennaInformation.zoom ≠ some ((0 &&& 0x04) + 2) := by
  decide

/-- C7 amended: for every valid `SIGNAL_DATA` frame the stored zoom is
`parameter &&& (MASK_ZOOM + 2)`, i.e. `parameter &&& 0x04`, with no
additive offset applied afterwards. -/
theorem zoom_masked (d : Stm32Driver) (f : InboundFrame)
    (hv : validate_checksum f = true) (hop : f.opcode = SIGNAL_DATA) :
    (process_frame d f).antenna_information.map AntennaInformation.zoom
      = some (f.param &&& (MASK_ZOOM + 2)) := by
  simp [process_frame, hv, hop, STM_READY, SIGNAL_STRENGTH, SIGNAL_DATA,
    notify_all_observers]

/-- Witness for C7's amended statement: parameter `5` stores zoom
`5 &&& 0x04 = 4`. -/
theorem zoom_masked_witness :
    (process_frame init_driver ⟨SIGNAL_DATA, 5, 65521⟩).antenna_information.map
        AntennaInformation.zoom = some (5 &&& (MASK_ZOOM + 2)) :=
  zoom_masked init_driver ⟨SIGNAL_DATA, 5, 65521⟩ (by decide) rfl

/-! ## C8 — painting number and orientation decoding -/

/-- C8: every valid `SIGNAL_DATA` frame stores
`painting_number = parameter &&& 0x70` and
`orientation = (360 - (parameter &&& 0x0C) * 90) % 360`; in particular
parameter `0x76` stores painting number `0x70` and orientation `0`. -/
theorem signal_data_decoding (d : Stm32Driver) (f : InboundFrame)
    (hv : validate_checksum f = true) (hop : f.opcode = SIGNAL_DATA) :
    ((process_frame d f).antenna_information.map AntennaInformation.painting_number
        = some (f.param &&& MASK_FIGURE))
    ∧ ((process_frame d f).antenna_information.map AntennaInformation.orientation
        = some ((360 - ((f.param &&& MASK_ORIENTATION : Nat) : Int) * 90) % 360))
    ∧ ((process_frame init_driver ⟨SIGNAL_DATA, 0x76, 65408⟩).antenna_information
        = some ⟨0x70, 4, 0⟩) := by
  refine ⟨?_, ?_, by decide⟩ <;>
    simp [process_frame, hv, hop, STM_READY, SIGNAL_STRENGTH, SIGNAL_DATA,
      notify_all_observers]

/-- Witness for C8: parameter `0x33` stores painting number
`0x33 &&& 0x70 = 0x30`. -/
theorem signal_data_decoding_witness :
    (process_frame init_driver ⟨SIGNAL_DATA, 0x33, 65475⟩).antenna_information.map
        AntennaInformation.painting_number = some (0x33 &&& MASK_FIGURE) :=
  (signal_data_decoding init_driver ⟨SIGNAL_DATA, 0x33, 65475⟩ (by decide) rfl).1

/-! ## C10 — the zoom actually stored is 0 or 4 -/

/-- C10: for every valid `SIGNAL_DATA` frame, the zoom the driver stores
equals `parameter &&& 0x04` (no offset applied), hence is `0` or `4` and
never `2` or `6`. -/
theorem zoom_stored_values (d : Stm32Driver) (f : InboundFrame)
    (hv : validate_checksum f = true) (hop : f.opcode = SIGNAL_DATA) :
    ((process_frame d f).antenna_information.map AntennaInformation.zoom
        = some (f.param &&& 0x04))
    ∧ ((f.param &&& 0x04) = 0 ∨ (f.param &&& 0x04) = 4) := by
  refine ⟨?_, and_four_cases f.param⟩
  simp [process_frame, hv, hop, STM_READY, SIGNAL_STRENGTH, SIGNAL_DATA,
    MASK_ZOOM, notify_all_observers]

/-- Witness for C10: parameter `0xFFFF` stores zoom `4` (not `6`). -/
theorem zoom_stored_values_witness :
    ((process_frame init_driver ⟨SIGNAL_DATA, 0xFFFF, 65527⟩).antenna_information.map
        AntennaInformation.zoom = some (0xFFFF &&& 0x04))
    ∧ ((0xFFFF &&& 0x04) = 0 ∨ (0xFFFF &&& 0x04) = 4) :=
  zoom_stored_values init_driver ⟨SIGNAL_DATA, 0xFFFF, 65527⟩ (by decide) rfl

end Stm32

namespace Stm32

/-! ## C5 — checksum acceptance and single-bit sensitivity -/

/-- C5: `validate_checksum` accepts a frame exactly when its three 16-bit
fields sum to `0 (mod 65536)`; any frame whose checksum field is built as
`(65536 - opcode - param) % 65536` is accepted; and flipping any single
bit (`k < 16`) of any of the three fields of an accepted frame yields a
frame that `validate_checksum` rejects. -/
theorem checksum_spec :
    (∀ f : InboundFrame,
        validate_checksum f = true ↔ (f.opcode + f.param + f.checksum_field) % 65536 = 0)
    ∧ (∀ o p : Nat, validate_checksum ⟨o, p, outbound_checksum o p 0⟩ = true)
    ∧ (∀ (f : InboundFrame) (i : Fin 3) (k : Nat), k < 16 →
        f.opcode < 65536 → f.param < 65536 → f.checksum_field < 65536 →
        validate_checksum f = true → validate_checksum (flipField f i k) = false) := by
  refine ⟨validate_checksum_iff, ?_, ?_⟩
  · intro o p
    simp only [validate_checksum, outbound_checksum, beq_iff_eq]
    omega
  · intro f i k hk _ _ _ hv
    have hsum : (f.opcode + f.param + f.checksum_field) % 65536 = 0 :=
      (validate_checksum_iff f).mp hv
    fin_cases i <;>
      simp only [flipField, validate_checksum, beq_eq_false_iff_ne, ne_eq]
    · have h := flip_sum_ne f.opcode (f.param + f.checksum_field) k hk (by omega)
      omega
    · have h := flip_sum_ne f.param (f.opcode + f.checksum_field) k hk (by omega)
      omega
    · have h := flip_sum_ne f.checksum_field (f.opcode + f.param) k hk (by omega)
      omega

/-- Witness for C5: the valid frame `(8, 3, 65525)` with bit 2 of its
opcode flipped is rejected. -/
theorem checksum_spec_witness :
    validate_checksum (flipField ⟨8, 3, 65525⟩ 0 2) = false :=
  checksum_spec.2.2 ⟨8, 3, 65525⟩ 0 2 (by decide) (by decide) (by decide)
    (by decide) (by decide)

end Stm32

namespace Stm32

/-! ## C6 — translate validation boundaries and encoding -/

/-- C6: `translate_robot` fails its assertion exactly when `dx` or `dy`
falls outside `[-32768, 32767]`; on such a failure the driver state (in
particular the write log) is unchanged; on success with an open port the
outbound frame carries `param1 = dx + 32768` and `param2 = dy + 32768`.
Concretely, `translate(32768, 0)` and `translate(-32769, 0)` fail while
`translate(32767, -32768)` succeeds and encodes `param1 = 65535`,
`param2 = 0`. -/
theorem translate_robot_spec :
    (∀ (d : Stm32Driver) (dx dy : Int),
        (translate_robot d dx dy).1 = some Err.assertionError ↔
          ¬(-32768 ≤ dx ∧ dx ≤ 32767 ∧ -32768 ≤ dy ∧ dy ≤ 32767))
    ∧ (∀ (d : Stm32Driver) (dx dy : Int),
        (translate_robot d dx dy).1 = some Err.assertionError →
          (translate_robot d dx dy).2 = d)
    ∧ (∀ (d : Stm32Driver) (dx dy : Int), d.port_is_open = true →
        -32768 ≤ dx → dx ≤ 32767 → -32768 ≤ dy → dy ≤ 32767 →
        translate_robot d dx dy =
          (none, { d with written := d.written ++
            [[TRANSLATE, (dx + 32768).toNat, (dy + 32768).toNat,
              outbound_checksum TRANSLATE (dx + 32768).toNat (dy + 32768).toNat]] }))
    ∧ translate_robot init_driver 32768 0 = (some Err.assertionError, init_driver)
    ∧ translate_robot init_driver (-32769) 0 = (some Err.assertionError, init_driver)
    ∧ translate_robot init_driver 32767 (-32768) =
        (none, { init_driver with written := [[TRANSLATE, 65535, 0, 1]] }) := by
  have hmain : ∀ (d : Stm32Driver) (dx dy : Int), d.port_is_open = true →
      -32768 ≤ dx → dx ≤ 32767 → -32768 ≤ dy → dy ≤ 32767 →
      translate_robot d dx dy =
        (none, { d with written := d.written ++
          [[TRANSLATE, (dx + 32768).toNat, (dy + 32768).toNat,
            outbound_checksum TRANSLATE (dx + 32768).toNat (dy + 32768).toNat]] }) := by
    intro d dx dy hopen h1 h2 h3 h4
    have hp1 : (dx + 32768).toNat < 65536 := by omega
    have hp2 : (dy + 32768).toNat < 65536 := by omega
    unfold translate_robot send_command
    rw [if_pos ⟨h1, h2⟩, if_pos ⟨h3, h4⟩,
      if_pos ⟨by norm_num [TRANSLATE], hp1, hp2,
        outbound_checksum_lt TRANSLATE (dx + 32768).toNat (dy + 32768).toNat⟩,
      if_pos hopen]
  refine ⟨?_, ?_, hmain, ?_, ?_, ?_⟩
  · intro d dx dy
    unfold translate_robot send_command
    split_ifs with h1 h2 h3 h4 <;> simp <;> omega
  · intro d dx dy
    unfold translate_robot send_command
    split_ifs <;> simp
  · decide
  · decide
  · have h := hmain init_driver 32767 (-32768) rfl (by norm_num) (by norm_num)
      (by norm_num) (by norm_num)
    rw [h]
    decide

/-- Witness for C6: the success clause evaluated at `(1, -1)` from the
fresh driver: `param1 = 32769`, `param2 = 32767`. -/
theorem translate_robot_spec_witness :
    translate_robot init_driver 1 (-1) =
      (none, { init_driver with written := [[TRANSLATE, ((1 : Int) + 32768).toNat,
        ((-1 : Int) + 32768).toNat,
        outbound_checksum TRANSLATE ((1 : Int) + 32768).toNat ((-1 : Int) + 32768).toNat]] }) :=
  translate_robot_spec.2.2.1 init_driver 1 (-1) rfl (by norm_num) (by norm_num)
    (by norm_num) (by norm_num)

end Stm32

namespace Stm32

/-- After `close`, `send_command` with 16-bit-range fields fails with the
port-not-open error and leaves the driver unchanged. -/
theorem send_command_closed (d : Stm32Driver) (c p1 p2 : Nat)
    (hd : d.port_is_open = false) (hc : c < 65536) (h1 : p1 < 65536) (h2 : p2 < 65536) :
    send_command d c p1 p2 = (some Err.portNotOpen, d) := by
  unfold send_command
  rw [if_pos ⟨hc, h1, h2, outbound_checksum_lt c p1 p2⟩, if_neg (by simp [hd])]

/-! ## C9 — no outbound command succeeds after close -/

/-- C9: once `close` has run (the receive thread has been joined and the
port closed), every outbound command operation — translate, rotate, stop,
reset, both LED controls, sampling control and decode-manchester — fails
with the port-closed error and writes nothing: the returned state is the
closed driver unchanged. -/
theorem commands_fail_after_close (d : Stm32Driver) (dx dy : Int) (theta : ℚ)
    (milliseconds : Nat) (b1 b2 : Bool)
    (hdx1 : -32768 ≤ dx) (hdx2 : dx ≤ 32767) (hdy1 : -32768 ≤ dy) (hdy2 : dy ≤ 32767)
    (hth1 : -two_pi ≤ theta) (hth2 : theta ≤ two_pi) (hms : milliseconds ≤ 65535) :
    translate_robot (close d) dx dy = (some Err.portNotOpen, close d)
    ∧ rotate_robot (close d) theta = (some Err.portNotOpen, close d)
    ∧ stop_robot (close d) = (some Err.portNotOpen, close d)
    ∧ reset_robot (close d) = (some Err.portNotOpen, close d)
    ∧ enable_red_led (close d) b1 = (some Err.portNotOpen, close d)
    ∧ flash_green_led (close d) milliseconds = (some Err.portNotOpen, close d)
    ∧ enable_sampling (close d) b2 = (some Err.portNotOpen, close d)
    ∧ decode_manchester (close d) = (some Err.portNotOpen, close d) := by
  have hclosed : (close d).port_is_open = false := rfl
  refine ⟨?_, ?_, ?_, ?_, ?_, ?_, ?_, ?_⟩
  · unfold translate_robot
    rw [if_pos ⟨hdx1, hdx2⟩, if_pos ⟨hdy1, hdy2⟩]
    exact send_command_closed _ _ _ _ hclosed (by norm_num [TRANSLATE]) (by omega) (by omega)
  · unfold rotate_robot
    rw [if_pos ⟨hth1, hth2⟩]
    have hle : ((theta + two_pi) * 100 : ℚ) ≤ ((1257 : Int) : ℚ) := by
      rw [two_pi] at hth2 ⊢
      push_cast
      norm_num
      linarith
    have hfl : ⌊((theta + two_pi) * 100 : ℚ)⌋ ≤ 1257 := by
      have h := Int.floor_le_floor hle
      rwa [Int.floor_intCast] at h
    exact send_command_closed _ _ _ _ hclosed (by norm_num [ROTATE]) (by omega)
      (by norm_num [EMPTY_PARAM])
  · exact send_command_closed _ _ _ _ hclosed (by norm_num [STOP])
      (by norm_num [EMPTY_PARAM]) (by norm_num [EMPTY_PARAM])
  · exact send_command_closed _ _ _ _ hclosed (by norm_num [RESET])
      (by norm_num [EMPTY_PARAM]) (by norm_num [EMPTY_PARAM])
  · unfold enable_red_led
    exact send_command_closed _ _ _ _ hclosed (by norm_num [ENABLE_RED_LED])
      (by cases b1 <;> norm_num [ENABLED, DISABLED]) (by norm_num [EMPTY_PARAM])
  · unfold flash_green_led
    rw [if_pos hms]
    exact send_command_closed _ _ _ _ hclosed (by norm_num [FLASH_GREEN_LED])
      (by omega) (by norm_num [EMPTY_PARAM])
  · unfold enable_sampling
    exact send_command_closed _ _ _ _ hclosed (by norm_num [ENABLE_ADC])
      (by cases b2 <;> norm_num [ENABLED, DISABLED]) (by norm_num [EMPTY_PARAM])
  · exact send_command_closed _ _ _ _ hclosed (by norm_num [DECODE_MANCHESTER])
      (by norm_num [EMPTY_PARAM]) (by norm_num [EMPTY_PARAM])

/-- Witness for C9: every outbound command fails on the freshly
constructed driver after `close`. -/
theorem commands_fail_after_close_witness :
    translate_robot (close init_driver) 0 0 = (some Err.portNotOpen, close init_driver)
    ∧ rotate_robot (close init_driver) 0 = (some Err.portNotOpen, close init_driver)
    ∧ stop_robot (close init_driver) = (some Err.portNotOpen, close init_driver)
    ∧ reset_robot (close init_driver) = (some Err.portNotOpen, close init_driver)
    ∧ enable_red_led (close init_driver) false = (some Err.portNotOpen, close init_driver)
    ∧ flash_green_led (close init_driver) 10 = (some Err.portNotOpen, close init_driver)
    ∧ enable_sampling (close init_driver) true = (some Err.portNotOpen, close init_driver)
    ∧ decode_manchester (close init_driver) = (some Err.portNotOpen, close init_driver) :=
  commands_fail_after_close init_driver 0 0 0 10 false true
    (by norm_num) (by norm_num) (by norm_num) (by norm_num)
    (by norm_num [two_pi]) (by norm_num [two_pi]) (by norm_num)

end Stm32

namespace Dispatch

/-! ## Dispatcher helper lemmas -/

/-- A lookup hit resolves to the stored command, with only the servo
modes updated. -/
theorem grc_table_hit (d : CommandDispatcher) (s : Step) (c : Command)
    (h : d.equivalencies.lookup s = some c) :
    d.get_relevant_command s = (c, d.set_strategies s) := by
  have h' : (d.set_strategies s).equivalencies.lookup s = some c := h
  simp only [CommandDispatcher.get_relevant_command, h']

/-- Whatever the lookup and rotation-set membership, the dispatcher state
returned by `get_relevant_command` carries the movement strategy produced
by `set_strategies`. -/
theorem grc_movement_strategy (d : CommandDispatcher) (s : Step) :
    (d.get_relevant_command s).2.movement_strategy = (d.set_strategies s).movement_strategy := by
  simp only [CommandDispatcher.get_relevant_command]
  rcases h : (d.set_strategies s).equivalencies.lookup s with _ | c <;>
    simp only [h]
  split_ifs <;> rfl

/-! ## C1 — resolution is total: table entry, else rotation factory, else
translation factory -/

/-- C1: `get_relevant_command` always returns a command (it is a total
function into `Command`; in the source every stored command object is
truthy, so the `if command:` test returns exactly the table hits): a step
present in the static table resolves to that table entry; a step absent
from the table and in `steps_using_rotation` resolves to the rotation
command factory's result; every other step resolves to the translation
command factory's result. -/
theorem dispatch_total (d : CommandDispatcher) (s : Step) :
    (∀ c : Command, d.equivalencies.lookup s = some c → (d.get_relevant_command s).1 = c)
    ∧ (d.equivalencies.lookup s = none → s ∈ steps_using_rotation →
        (d.get_relevant_command s).1 = MovementStrategy.get_rotation_command s d.uid_counter)
    ∧ (d.equivalencies.lookup s = none → s ∉ steps_using_rotation →
        (d.get_relevant_command s).1 = MovementStrategy.get_translation_command s d.uid_counter) := by
  refine ⟨?_, ?_, ?_⟩
  · intro c h
    rw [grc_table_hit d s c h]
  · intro h hmem
    have h' : (d.set_strategies s).equivalencies.lookup s = none := h
    simp only [CommandDispatcher.get_relevant_command, h']
    rw [if_pos hmem]
    rfl
  · intro h hmem
    have h' : (d.set_strategies s).equivalencies.lookup s = none := h
    simp only [CommandDispatcher.get_relevant_command, h']
    rw [if_neg hmem]
    rfl

/-- Witness for C1: `ROTATE_TO_FACE_PAINTING` is not in the static table
and is in the rotation set, so it resolves through the rotation factory. -/
theorem dispatch_total_witness :
    (disp0.get_relevant_command Step.ROTATE_TO_FACE_PAINTING).1 =
      MovementStrategy.get_rotation_command Step.ROTATE_TO_FACE_PAINTING disp0.uid_counter :=
  (dispatch_total disp0 Step.ROTATE_TO_FACE_PAINTING).2.1 (by decide) (by decide)

/-! ## C3 — servo modes are reassigned on every lookup -/

/-- C3: every call to `get_relevant_command` sets the shared movement
strategy's translation mode to trust-material-servoing exactly when the
step belongs to the fixed translation-servo set (otherwise to
basic-wheel-servoing), and independently sets its rotation mode to
trust-material-servoing exactly when the step belongs to the fixed
rotation-servo set, before returning the command. -/
theorem servo_mode_selection (d : CommandDispatcher) (s : Step) :
    ((d.get_relevant_command s).2.movement_strategy.translation_strategy =
      if s ∈ steps_using_translation_material_servo_management then
        StrategyType.trustMaterialServoing
      else StrategyType.basicWheelServoing)
    ∧ ((d.get_relevant_command s).2.movement_strategy.rotation_strategy =
      if s ∈ steps_using_rotation_material_servo_management then
        StrategyType.trustMaterialServoing
      else StrategyType.basicWheelServoing) := by
  rw [grc_movement_strategy d s]
  exact ⟨rfl, rfl⟩

/-! ## C4 — table commands are singletons reused across calls -/

/-- C4: for a step in the static table, `get_relevant_command` returns
exactly the command stored there, leaves the table untouched, and a
second call on the dispatcher state returned by the first yields the very
same command value (the `uid` models Python object identity, assigned
once when `__init__` built the table). -/
theorem table_command_persistent (d : CommandDispatcher) (s : Step)
    (h : (d.equivalencies.lookup s).isSome = true) :
    (∀ c : Command, d.equivalencies.lookup s = some c → (d.get_relevant_command s).1 = c)
    ∧ (d.get_relevant_command s).2.equivalencies = d.equivalencies
    ∧ ((d.get_relevant_command s).2.get_relevant_command s).1 =
        (d.get_relevant_command s).1 := by
  obtain ⟨c, hc⟩ := Option.isSome_iff_exists.mp h
  have h1 := grc_table_hit d s c hc
  refine ⟨?_, ?_, ?_⟩
  · intro c2 hc2
    rw [hc] at hc2
    rw [h1]
    exact Option.some.inj hc2
  · rw [h1]
    rfl
  · rw [h1]
    exact congrArg Prod.fst (grc_table_hit (d.set_strategies s) s c hc)

/-- Witness for C4: repeated lookups of `STANBY` on the concrete
dispatcher return the same command object. -/
theorem table_command_persistent_witness :
    ((disp0.get_relevant_command Step.STANBY).2.get_relevant_command Step.STANBY).1 =
      (disp0.get_relevant_command Step.STANBY).1 :=
  (table_command_persistent disp0 Step.STANBY (by decide)).2.2

end Dispatch
